import Mathlib

/-!
Shallow embedding of the wp-backup tool (src/src), covering the parts the
claims speak about: the secret manager (src/src/security/secrets.py), the
configuration validator (src/src/security/validator.py) and the backup
orchestrator (src/src/core/backup.py).  Python regular-expression
substitutions are embedded as left-to-right scanners specialised to the five
fixed patterns of SecretManager.mask_sensitive_data; each scanner reproduces
re.sub semantics (leftmost match, non-overlapping, greedy with the
backtracking the concrete pattern admits).
-/

namespace WpBackup

/-- Python's regex class \s restricted to ASCII: space, tab, newline,
carriage return, vertical tab, form feed. -/
def pySpace (c : Char) : Bool :=
  c = ' ' || c = '\t' || c = '\n' || c = '\r' || c = '\x0B' || c = '\x0C'

/-- A single or double quote, the class ["'] of the masking patterns. -/
def isQuoteChar (c : Char) : Bool := c = '"' || c = '\''

/-- Python's regex class \w on ASCII: letters, digits, underscore. -/
def isWordChar (c : Char) : Bool := c.isAlphanum || c = '_'

/-- Lower-case a character list (ASCII, matching Python .lower() on the
inputs that occur here). -/
def lowerChars (l : List Char) : List Char := l.map Char.toLower

/-- Case-insensitive literal match at the head of l: returns the matched
characters in their original case together with the rest. -/
def dropLitCI : List Char → List Char → Option (List Char × List Char)
  | [], l => some ([], l)
  | _ :: _, [] => none
  | p :: ps, c :: cs =>
    if c.toLower = p.toLower then
      match dropLitCI ps cs with
      | some (m, r) => some (c :: m, r)
      | none => none
    else none

/-- sub occurs as a contiguous run inside l (Python's `x in y` on strings). -/
def containsSub (sub : List Char) : List Char → Bool
  | [] => sub.isEmpty
  | c :: cs => sub.isPrefixOf (c :: cs) || containsSub sub cs

/-- Python str.split(sep) on a character list (structurally recursive, so
the kernel can evaluate it). -/
def splitOnChar (sep : Char) : List Char → List (List Char)
  | [] => [[]]
  | c :: cs =>
    if c = sep then [] :: splitOnChar sep cs
    else
      match splitOnChar sep cs with
      | h :: t => (c :: h) :: t
      | [] => [[c]]

/-- sep.join for character lists. -/
def intercalateChar (sep : Char) : List (List Char) → List Char
  | [] => []
  | [x] => x
  | x :: xs => x ++ sep :: intercalateChar sep xs

/-- The replacement text `***` used by every masking pattern. -/
def starMask : List Char := ['*', '*', '*']

/-- Shared tail of the password and api-key patterns:
`["']?\s*[:=]\s*["']?` then the value `[^"'\s]+` then `["']?`.
Returns (group-1 text after the keyword, group-3 text, rest).  The optional
quotes are taken greedily; for this pattern that is exactly the regex
engine's behaviour, since a declined quote can never be matched by the
character class that follows it. -/
def matchAssignTail (l : List Char) : Option (List Char × List Char × List Char) :=
  let (q1, l1) := match l with
    | c :: cs => if isQuoteChar c then ([c], cs) else ([], l)
    | [] => ([], l)
  let (ws1, l2) := l1.span pySpace
  match l2 with
  | c :: l3 =>
    if c = ':' || c = '=' then
      let (ws2, l4) := l3.span pySpace
      let (q2, l5) := match l4 with
        | d :: ds => if isQuoteChar d then ([d], ds) else ([], l4)
        | [] => ([], l4)
      let (v, l6) := l5.span (fun d => !(isQuoteChar d || pySpace d))
      if v.isEmpty then none
      else
        let (q3, l7) := match l6 with
          | d :: ds => if isQuoteChar d then ([d], ds) else ([], l6)
          | [] => ([], l6)
        some (q1 ++ ws1 ++ [c] ++ ws2 ++ q2, q3, l7)
    else none
  | [] => none

/-- Pattern 1 of mask_sensitive_data:
`(password["']?\s*[:=]\s*["']?)([^"'\s]+)(["']?)` replaced by `\1***\3`,
case-insensitively.  Returns (replacement, rest) on a match at the head. -/
def matchPassword (l : List Char) : Option (List Char × List Char) :=
  match dropLitCI "password".data l with
  | some (kw, r) =>
    match matchAssignTail r with
    | some (g1t, g3, rest) => some (kw ++ g1t ++ starMask ++ g3, rest)
    | none => none
  | none => none

/-- The keyword alternation `api[_-]?key|access[_-]?token` of pattern 2. -/
def matchKeyLit (l : List Char) : Option (List Char × List Char) :=
  let sep : List Char → List Char × List Char := fun r =>
    match r with
    | d :: ds => if d = '_' || d = '-' then ([d], ds) else ([], r)
    | [] => ([], r)
  match dropLitCI "api".data l with
  | some (m1, r1) =>
    let (s1, r2) := sep r1
    match dropLitCI "key".data r2 with
    | some (m2, r3) => some (m1 ++ s1 ++ m2, r3)
    | none => none
  | none =>
    match dropLitCI "access".data l with
    | some (m1, r1) =>
      let (s1, r2) := sep r1
      match dropLitCI "token".data r2 with
      | some (m2, r3) => some (m1 ++ s1 ++ m2, r3)
      | none => none
    | none => none

/-- Pattern 2 of mask_sensitive_data:
`((?:api[_-]?key|access[_-]?token)["']?\s*[:=]\s*["']?)([^"'\s]+)(["']?)`
replaced by `\1***\3`, case-insensitively. -/
def matchApiAssign (l : List Char) : Option (List Char × List Char) :=
  match matchKeyLit l with
  | some (kw, r) =>
    match matchAssignTail r with
    | some (g1t, g3, rest) => some (kw ++ g1t ++ starMask ++ g3, rest)
    | none => none
  | none => none

/-- Pattern 3 of mask_sensitive_data: `(https?://[^:]+:)([^@]+)(@)` replaced
by `\1***\3`.  `[^:]+` necessarily stops at the first colon and `[^@]+` at
the first at-sign, so the greedy match is forced. -/
def matchUrlCred (l : List Char) : Option (List Char × List Char) :=
  match dropLitCI "http".data l with
  | none => none
  | some (m1, r1) =>
    let (ms, r2) := match r1 with
      | c :: cs => if c.toLower = 's' then ([c], cs) else ([], r1)
      | [] => ([], r1)
    match dropLitCI "://".data r2 with
    | none => none
    | some (m2, r3) =>
      let (u, r4) := r3.span (fun c => c ≠ ':')
      if u.isEmpty then none
      else
        match r4 with
        | ':' :: r5 =>
          let (p, r6) := r5.span (fun c => c ≠ '@')
          if p.isEmpty then none
          else
            match r6 with
            | '@' :: r7 => some (m1 ++ ms ++ m2 ++ u ++ ':' :: (starMask ++ ['@']), r7)
            | _ => none
        | _ => none

/-- Pattern 4 of mask_sensitive_data: `(\w+)(@\w+\.\w+)` replaced by
`***\2`.  Each \w+ run is maximal; the following literal forces it. -/
def matchEmail (l : List Char) : Option (List Char × List Char) :=
  let (w1, r1) := l.span isWordChar
  if w1.isEmpty then none
  else
    match r1 with
    | '@' :: r2 =>
      let (w2, r3) := r2.span isWordChar
      if w2.isEmpty then none
      else
        match r3 with
        | '.' :: r4 =>
          let (w3, r5) := r4.span isWordChar
          if w3.isEmpty then none
          else some (starMask ++ '@' :: (w2 ++ '.' :: w3), r5)
        | _ => none
    | _ => none

/-- The keyword alternation of pattern 5. -/
def pathKeywords : List (List Char) :=
  ["secret".data, "private".data, "key".data, "credential".data]

/-- Pattern 5 of mask_sensitive_data:
`(/[^/]*(?:secret|private|key|credential)[^/]*/)([^/\s]+)` replaced by
`\1***`.  Group 1 is one slash-delimited segment containing a keyword
(segments cannot cross a slash, so the engine's backtracking search inside
the segment succeeds exactly when the keyword occurs in it). -/
def matchSecretPath (l : List Char) : Option (List Char × List Char) :=
  match l with
  | '/' :: r1 =>
    let (seg, r2) := r1.span (fun c => c ≠ '/')
    match r2 with
    | '/' :: r3 =>
      if pathKeywords.any (fun k => containsSub k (lowerChars seg)) then
        let (v, r4) := r3.span (fun c => !(c = '/' || pySpace c))
        if v.isEmpty then none
        else some ('/' :: (seg ++ '/' :: starMask), r4)
      else none
    | _ => none
  | _ => none

/-- One re.sub pass: try the matcher at each position from the left; on a
match emit its replacement and continue after the matched span, otherwise
keep the character.  Every pattern here consumes at least one character, so
fuel = length + 1 never runs out. -/
def subScan (m : List Char → Option (List Char × List Char)) :
    Nat → List Char → List Char
  | 0, l => l
  | _ + 1, [] => []
  | fuel + 1, c :: cs =>
    match m (c :: cs) with
    | some (rep, rest) => rep ++ subScan m fuel rest
    | none => c :: subScan m fuel cs

/-- re.sub with the given single-position matcher. -/
def reSub (m : List Char → Option (List Char × List Char)) (l : List Char) :
    List Char :=
  subScan m (l.length + 1) l

/-- SecretManager.mask_sensitive_data: the five substitutions applied in
order, each to the output of the previous one.  On empty text the guard
`if not text: return text` returns the text unchanged, which the scan does
as well. -/
def mask_sensitive_data (s : String) : String :=
  String.mk (reSub matchSecretPath (reSub matchEmail (reSub matchUrlCred
    (reSub matchApiAssign (reSub matchPassword s.data)))))

/-- Python truthiness of an optional string (None and the empty string are
falsy). -/
def pyTruthyOptStr (v : Option String) : Bool :=
  match v with
  | some s => !(s == "")
  | none => false

/-- Python falsiness of a .get result that is a string or None. -/
def pyFalsyOptStr (v : Option String) : Bool :=
  match v with
  | none => true
  | some s => s == ""

/-- Python str.strip() on the ASCII whitespace that occurs here. -/
def pyStrip (s : String) : String :=
  String.mk (((s.data.dropWhile pySpace).reverse.dropWhile pySpace).reverse)

/-- Python str.strip on the two quote characters, both ends. -/
def stripQuotesEnds (s : String) : String :=
  String.mk (((s.data.dropWhile isQuoteChar).reverse.dropWhile isQuoteChar).reverse)

/-- Python line.split(the equals sign, 1) for a line known to contain one. -/
def splitFirstEq : List Char → List Char × List Char
  | [] => ([], [])
  | c :: cs =>
    if c = '=' then ([], cs)
    else
      let (a, b) := splitFirstEq cs
      (c :: a, b)

/-- The line loop of SecretManager._load_from_env_file: skip stripped lines
that are comments or carry no equals sign; the first line whose stripped key
matches decides the result, an empty value (stripped of quotes) giving
none. -/
def scanEnvLines (key : String) : List String → Option String
  | [] => none
  | ln :: rest =>
    if ['#'].isPrefixOf (pyStrip ln).data
        || !((pyStrip ln).data.any (fun c => c = '=')) then
      scanEnvLines key rest
    else if pyStrip (String.mk (splitFirstEq (pyStrip ln).data).1) = key then
      if stripQuotesEnds (pyStrip (String.mk (splitFirstEq (pyStrip ln).data).2)) = "" then
        none
      else some (stripQuotesEnds (pyStrip (String.mk (splitFirstEq (pyStrip ln).data).2)))
    else scanEnvLines key rest

/-- SecretManager._load_from_env_file: none when the file does not exist,
otherwise the line scan. -/
def load_from_env_file (key : String) (file : Option (List String)) : Option String :=
  match file with
  | none => none
  | some lines => scanEnvLines key lines

/-- The sources SecretManager.get_secret reads: the process environment, the
ordered env files (.env.local then .env; none means the file does not exist,
some lines means its content), and what one interactive prompt would yield
(none models a KeyboardInterrupt). -/
structure SecretSources where
  osenv : String → Option String
  envFiles : List (Option (List String))
  promptRaw : Option String

/-- SecretManager._prompt_for_secret: getpass (no strip) for keys containing
password or secret, input().strip() otherwise; empty input and interrupts
yield none. -/
def prompt_for_secret (src : SecretSources) (key : String) : Option String :=
  match src.promptRaw with
  | none => none
  | some raw =>
    let value :=
      if containsSub "password".data (lowerChars key.data)
          || containsSub "secret".data (lowerChars key.data) then raw
      else pyStrip raw
    if value = "" then none else some value

/-- The loop over env_file_paths in get_secret: return the first truthy
value a file yields. -/
def envFileLoop (key : String) : List (Option (List String)) → Option String
  | [] => none
  | f :: fs =>
    let value := load_from_env_file key f
    if pyTruthyOptStr value then value else envFileLoop key fs

/-- SecretManager.get_secret; hasPrompt says whether a prompt message was
supplied. -/
def get_secret (src : SecretSources) (key : String) (hasPrompt : Bool) :
    Option String :=
  let v0 := src.osenv key
  if pyTruthyOptStr v0 then v0
  else
    match envFileLoop key src.envFiles with
    | some v => some v
    | none => if hasPrompt then prompt_for_secret src key else none

/-- A single dot-delimited label of ConfigValidator._is_valid_domain:
the piece `[a-zA-Z0-9](?:[a-zA-Z0-9-]{0,61}[a-zA-Z0-9])?`. -/
def isDomainLabel (l : List Char) : Bool :=
  match l with
  | [] => false
  | [c] => c.isAlphanum
  | c :: rest =>
    c.isAlphanum && decide (rest.dropLast.length ≤ 61)
      && rest.dropLast.all (fun x => x.isAlphanum || x = '-')
      && ((rest.getLast?.map Char.isAlphanum).getD false)

/-- ConfigValidator._is_valid_domain:
`^(?:[a-zA-Z0-9](?:[a-zA-Z0-9-]{0,61}[a-zA-Z0-9])?\.)+[a-zA-Z]{2,}$`.
Labels cannot contain a dot, so the anchored pattern decomposes along the
dots: at least one label, then a purely alphabetic tail of length at least
two. -/
def is_valid_domain (s : String) : Bool :=
  let parts := splitOnChar '.' s.data
  decide (2 ≤ parts.length)
    && parts.dropLast.all isDomainLabel
    && ((parts.getLast?.map (fun p =>
          decide (2 ≤ p.length) && p.all Char.isAlpha)).getD false)

/-- The local-part class `[a-zA-Z0-9._%+-]` of _is_valid_email. -/
def emailLocalChar (c : Char) : Bool :=
  c.isAlphanum || c = '.' || c = '_' || c = '%' || c = '+' || c = '-'

/-- The domain-part class `[a-zA-Z0-9.-]` of _is_valid_email. -/
def emailDomainChar (c : Char) : Bool := c.isAlphanum || c = '.' || c = '-'

/-- ConfigValidator._is_valid_email:
`^[a-zA-Z0-9._%+-]+@[a-zA-Z0-9.-]+\.[a-zA-Z]{2,}$`.  Exactly one at-sign;
after it only the split at the last dot can satisfy the engine (an earlier
dot would leave a dot inside the alphabetic tail). -/
def is_valid_email (s : String) : Bool :=
  match splitOnChar '@' s.data with
  | [loc, dom] =>
    !loc.isEmpty && loc.all emailLocalChar &&
      (let tldRest := dom.reverse.span (fun c => c ≠ '.')
       match tldRest.2 with
       | '.' :: preR =>
         !preR.isEmpty && preR.all emailDomainChar
           && decide (2 ≤ tldRest.1.length) && tldRest.1.all Char.isAlpha
       | _ => false)
  | _ => false

/-- posixpath.normpath as CPython implements it: collapse repeated
separators, drop single-dot components, resolve double-dot components
textually, preserving an exactly-double leading slash. -/
def posixNormpath (path : String) : String :=
  if path = "" then "."
  else
    let slashes : Nat :=
      match path.data with
      | '/' :: '/' :: '/' :: _ => 1
      | '/' :: '/' :: _ => 2
      | '/' :: _ => 1
      | _ => 0
    let comps := splitOnChar '/' path.data
    let newComps := comps.foldl (fun acc comp =>
      if comp = [] ∨ comp = ['.'] then acc
      else if comp ≠ ['.', '.'] ∨ (slashes = 0 ∧ acc = [])
          ∨ acc.getLast? = some ['.', '.'] then
        acc ++ [comp]
      else if !acc.isEmpty then acc.dropLast
      else acc) []
    let joined := intercalateChar '/' newComps
    let p := List.replicate slashes '/' ++ joined
    if p = [] then "." else String.mk p

/-- The fixed critical-path list of _is_safe_path, lower-cased as the
comparison does. -/
def criticalPathsLower : List String :=
  ["/bin", "/boot", "/dev", "/etc", "/lib", "/proc", "/root", "/sbin", "/sys",
   "c:\\windows", "c:\\program files", "c:\\system32"]

/-- ConfigValidator._is_safe_path: no double dot anywhere, no
Windows-invalid character, not only separators, and the normalised
lower-cased path does not start with a critical system directory (posix
flavour of os.path). -/
def is_safe_path (path : String) : Bool :=
  if containsSub ['.', '.'] path.data then false
  else if path.data.any (fun c =>
      c = '<' || c = '>' || c = '"' || c = '|' || c = '*' || c = '?') then false
  else if !path.data.isEmpty && path.data.all (fun c => c = '/' || c = '\\') then false
  else
    let np := lowerChars (posixNormpath path).data
    !(criticalPathsLower.any (fun cp => cp.data.isPrefixOf np))

/-- ConfigValidator._is_valid_gdrive_folder. -/
def is_valid_gdrive_folder (folder : String) : Bool :=
  if pyStrip folder = "" then false
  else if ['<', '>', ':', '"', '|', '?', '*'].any
      (fun c => containsSub [c] folder.data) then false
  else if ((folder.data.head?.map (fun c => c = ' ' || c = '.')).getD false)
      || ((folder.data.getLast?.map (fun c => c = ' ' || c = '.')).getD false) then
    false
  else true

/-- One octet of the IPv4 alternation in _is_valid_db_host:
`25[0-5]|2[0-4][0-9]|[01]?[0-9][0-9]?`, required to consume a whole
dot-delimited field. -/
def ipv4Octet (l : List Char) : Bool :=
  match l with
  | [a] => a.isDigit
  | [a, b] => a.isDigit && b.isDigit
  | [a, b, c] =>
    (a = '2' && b = '5' && decide ('0' ≤ c) && decide (c ≤ '5'))
      || (a = '2' && decide ('0' ≤ b) && decide (b ≤ '4') && c.isDigit)
      || ((a = '0' || a = '1') && b.isDigit && c.isDigit)
  | _ => false

/-- ConfigValidator._is_valid_db_host. -/
def is_valid_db_host (host : String) : Bool :=
  if host = "localhost" || host = "127.0.0.1" || host = "::1" then true
  else
    let parts := splitOnChar '.' host.data
    if parts.length = 4 && parts.all ipv4Octet then true
    else is_valid_domain host

/-- ConfigValidator._is_valid_db_name: `^[a-zA-Z0-9_][a-zA-Z0-9_$]*$` and
length at most 64. -/
def is_valid_db_name (s : String) : Bool :=
  match s.data with
  | [] => false
  | c :: rest =>
    (c.isAlphanum || c = '_')
      && rest.all (fun x => x.isAlphanum || x = '_' || x = '$')
      && decide (s.data.length ≤ 64)

/-- A Python value as the validator's dynamic type checks see it, for the
configuration entries that may carry a non-string type. -/
inductive PyVal where
  | vint (n : Int)
  | vbool (b : Bool)
  | vstr (s : String)
deriving DecidableEq

/-- Python isinstance(v, int); bool is a subclass of int. -/
def PyVal.isInstInt : PyVal → Bool
  | .vint _ => true
  | .vbool _ => true
  | .vstr _ => false

/-- Python isinstance(v, bool). -/
def PyVal.isInstBool : PyVal → Bool
  | .vbool _ => true
  | _ => false

/-- The integer a PyVal compares as, where isinstance int holds. -/
def PyVal.asInt : PyVal → Int
  | .vint n => n
  | .vbool b => if b then 1 else 0
  | .vstr _ => 0

/-- The wordpress section as the dict the validator reads (.get of a
missing key is None). -/
structure WpSection where
  domain : Option String := none
  path : Option String := none
  backup_dir : Option String := none

/-- The google_drive section. -/
structure GdriveSection where
  folder : Option String := none
  credentials_file : Option String := none
  retention_days : Option PyVal := none

/-- The sharing section. -/
structure SharingSection where
  emails : List String := []
  role : Option String := none
  make_public : Option PyVal := none

/-- The database section. -/
structure DbSection where
  host : Option String := none
  name : Option String := none
  user : Option String := none

/-- The full configuration dict handed to validate_full_config. -/
structure ConfigDict where
  wordpress : WpSection := {}
  google_drive : GdriveSection := {}
  sharing : SharingSection := {}
  database : Option DbSection := none

/-- The domain block of _validate_wordpress_config (errors, warnings). -/
def wpDomainCheck (domain : Option String) : List String × List String :=
  if pyFalsyOptStr domain then (["WordPress domain is required"], [])
  else if !is_valid_domain (domain.getD "") then
    (["Invalid WordPress domain format: " ++ domain.getD ""], [])
  else if domain.getD "" = "example.com" || domain.getD "" = "localhost"
      || domain.getD "" = "test.com" then
    ([], ["WordPress domain looks like a placeholder: " ++ domain.getD ""])
  else ([], [])

/-- The path block of _validate_wordpress_config. -/
def wpPathCheck (path : Option String) : List String :=
  if pyFalsyOptStr path then ["WordPress path is required"]
  else if !is_safe_path (path.getD "") then
    ["WordPress path appears unsafe: " ++ path.getD ""]
  else []

/-- The backup_dir block of _validate_wordpress_config. -/
def wpBackupDirCheck (backup_dir : Option String) : List String :=
  if pyTruthyOptStr backup_dir && !is_safe_path (backup_dir.getD "") then
    ["Backup directory appears unsafe: " ++ backup_dir.getD ""]
  else []

/-- ConfigValidator._validate_wordpress_config: the (errors, warnings) it
appends, in order. -/
def validate_wordpress_config (w : WpSection) : List String × List String :=
  ((wpDomainCheck w.domain).1 ++ wpPathCheck w.path ++ wpBackupDirCheck w.backup_dir,
   (wpDomainCheck w.domain).2)

/-- The error text of the retention bound check. -/
def retentionMsg : String := "Retention days must be between 1 and 365"

/-- The folder block of _validate_google_drive_config. -/
def gdFolderCheck (folder : Option String) : List String :=
  if pyFalsyOptStr folder then ["Google Drive folder is required"]
  else if !is_valid_gdrive_folder (folder.getD "") then
    ["Invalid Google Drive folder path: " ++ folder.getD ""]
  else []

/-- The credentials-file block of _validate_google_drive_config
(errors, warnings). -/
def gdCredsCheck (fsExists : String → Bool) (credentials_file : Option String) :
    List String × List String :=
  if pyFalsyOptStr credentials_file then
    (["Google Drive credentials file is required"], [])
  else if !fsExists (credentials_file.getD "") then
    ([], ["Google Drive credentials file not found: " ++ credentials_file.getD ""])
  else ([], [])

/-- The retention block of _validate_google_drive_config: present values
must be isinstance int (bool included, as in Python) and lie in 1..365. -/
def gdRetentionCheck (retention_days : Option PyVal) : List String :=
  match retention_days with
  | none => []
  | some rv =>
    if !rv.isInstInt || decide (rv.asInt < 1) || decide (365 < rv.asInt) then
      [retentionMsg]
    else []

/-- ConfigValidator._validate_google_drive_config; fsExists models
Path.exists. -/
def validate_google_drive_config (fsExists : String → Bool) (g : GdriveSection) :
    List String × List String :=
  (gdFolderCheck g.folder ++ (gdCredsCheck fsExists g.credentials_file).1
      ++ gdRetentionCheck g.retention_days,
   (gdCredsCheck fsExists g.credentials_file).2)

/-- The email loop of _validate_sharing_config. -/
def shEmailCheck (emails : List String) : List String :=
  emails.filterMap (fun e =>
    if is_valid_email e then none else some ("Invalid email format: " ++ e))

/-- The role block of _validate_sharing_config. -/
def shRoleCheck (role : Option String) : List String :=
  if pyTruthyOptStr role
      && !(role.getD "" = "reader" || role.getD "" = "writer") then
    ["Invalid sharing role: " ++ (role.getD "" ++ ". Must be 'reader' or 'writer'")]
  else []

/-- The make_public block of _validate_sharing_config. -/
def shPublicCheck (make_public : Option PyVal) : List String :=
  match make_public with
  | none => []
  | some v => if !v.isInstBool then ["make_public must be a boolean value"] else []

/-- ConfigValidator._validate_sharing_config. -/
def validate_sharing_config (s : SharingSection) : List String × List String :=
  (shEmailCheck s.emails ++ shRoleCheck s.role ++ shPublicCheck s.make_public, [])

/-- The required-fields loop of _validate_database_config (host, name, user
in that order). -/
def dbRequiredCheck (d : DbSection) : List String :=
  (if pyFalsyOptStr d.host then ["Database host is required"] else [])
    ++ (if pyFalsyOptStr d.name then ["Database name is required"] else [])
    ++ (if pyFalsyOptStr d.user then ["Database user is required"] else [])

/-- The host block of _validate_database_config (a warning only). -/
def dbHostCheck (host : Option String) : List String :=
  if pyTruthyOptStr host && !is_valid_db_host (host.getD "") then
    ["Database host format might be invalid: " ++ host.getD ""]
  else []

/-- The name block of _validate_database_config. -/
def dbNameCheck (name : Option String) : List String :=
  if pyTruthyOptStr name && !is_valid_db_name (name.getD "") then
    ["Invalid database name format: " ++ name.getD ""]
  else []

/-- ConfigValidator._validate_database_config. -/
def validate_database_config (d : DbSection) : List String × List String :=
  (dbRequiredCheck d ++ dbNameCheck d.name, dbHostCheck d.host)

/-- ConfigValidator.validate_full_config: clears the report, validates every
section (the database one only when that entry is truthy), accumulating
errors and warnings in order.  Returns the report. -/
def validate_full_config (fsExists : String → Bool) (cfg : ConfigDict) :
    List String × List String :=
  let w := validate_wordpress_config cfg.wordpress
  let g := validate_google_drive_config fsExists cfg.google_drive
  let s := validate_sharing_config cfg.sharing
  let d := match cfg.database with
    | some db => validate_database_config db
    | none => ([], [])
  (w.1 ++ g.1 ++ s.1 ++ d.1, w.2 ++ g.2 ++ s.2 ++ d.2)

/-- The boolean validate_full_config returns: len(errors) == 0. -/
def validate_full_config_ok (fsExists : String → Bool) (cfg : ConfigDict) : Bool :=
  (validate_full_config fsExists cfg).1.isEmpty

/-- The outcome of one provider call: a returned value or a raised
exception carrying its message. -/
inductive PRes (α : Type) where
  | ok (v : α)
  | exn (msg : String)
deriving DecidableEq

/-- The sharing configuration the orchestrator hands to configure_access
(pydantic SharingConfig with its defaults). -/
structure SharingConfig where
  emails : List String := []
  role : String := "writer"
  make_public : Bool := false
deriving DecidableEq

/-- The slice of Config that the result computation of execute_backup
reads: config.sharing and config.google_drive.retention_days. -/
structure OrchConfig where
  sharing : SharingConfig := {}
  retention_days : Int := 7
deriving DecidableEq

/-- One run's environment: the behaviour of the two providers (each call
either returns a value or raises), the working directory
TemporaryDirectory yields, get_file_size as a function of the artifact
path, and the two time.time() readings (t0 at entry, t1 at the
success-path result population). -/
structure RunEnv where
  validate_setup : PRes Bool
  src_authenticate : PRes Bool
  sink_authenticate : PRes Bool
  create_backup : String → PRes (Option String)
  upload : String → PRes (Option String)
  configure_access : SharingConfig → PRes Bool
  cleanup_old_files : Int → PRes Int
  file_size : String → String
  temp_dir : String
  t0 : ℚ
  t1 : ℚ

/-- providers.base.BackupResult with its dataclass defaults. -/
structure BackupResult where
  success : Bool := false
  backup_id : Option String := none
  error : Option String := none
  files_cleaned : Int := 0
  duration : Option ℚ := none
  backup_size : Option String := none
deriving DecidableEq

/-- The provider calls execute_backup can make, for stating which calls a
run performed. -/
inductive PCall where
  | validateSetup
  | srcAuth
  | sinkAuth
  | createBackup
  | upload
  | configureAccess
  | cleanupOldFiles
deriving DecidableEq

/-- BackupOrchestrator._validate_setup: prints the configuration, calls the
backup provider's validate_setup, catching any exception into a False
verdict. -/
def validate_setup_helper (env : RunEnv) : Bool :=
  match env.validate_setup with
  | .ok b => b
  | .exn _ => false

/-- BackupOrchestrator._authenticate_providers: backup provider first, the
storage provider only when that succeeded; any exception is caught into a
False verdict (the masked message goes to the log only). -/
def authenticate_providers_helper (env : RunEnv) : Bool × List PCall :=
  match env.src_authenticate with
  | .exn _ => (false, [.srcAuth])
  | .ok false => (false, [.srcAuth])
  | .ok true =>
    match env.sink_authenticate with
    | .exn _ => (false, [.srcAuth, .sinkAuth])
    | .ok b => (b, [.srcAuth, .sinkAuth])

/-- BackupOrchestrator.execute_backup together with the trace of provider
calls it makes.  Mirrors the single try/except/finally of the source: the
two helper stages catch their own exceptions and leave a fixed message; an
exception escaping any later stage reaches the orchestrator's handler,
which stores the masked message on the result while every field mutated so
far is kept; the finally block only touches the local filesystem and never
the result. -/
def execute_backup_run (env : RunEnv) (cfg : OrchConfig) :
    BackupResult × List PCall :=
  if !validate_setup_helper env then
    ({ error := some "Setup validation failed" }, [.validateSetup])
  else
    let auth := authenticate_providers_helper env
    let tr0 : List PCall := .validateSetup :: auth.2
    if !auth.1 then
      ({ error := some "Provider authentication failed" }, tr0)
    else
      match env.create_backup env.temp_dir with
      | .exn m =>
        ({ error := some (mask_sensitive_data m) }, tr0 ++ [.createBackup])
      | .ok backup_file =>
        if !pyTruthyOptStr backup_file then
          ({ error := some "Backup creation failed" }, tr0 ++ [.createBackup])
        else
          let bf := backup_file.getD ""
          match env.upload bf with
          | .exn m =>
            ({ error := some (mask_sensitive_data m) },
             tr0 ++ [.createBackup, .upload])
          | .ok file_id =>
            if !pyTruthyOptStr file_id then
              ({ error := some "Upload failed" }, tr0 ++ [.createBackup, .upload])
            else
              match env.configure_access cfg.sharing with
              | .exn m =>
                ({ error := some (mask_sensitive_data m) },
                 tr0 ++ [.createBackup, .upload, .configureAccess])
              | .ok _ =>
                match env.cleanup_old_files cfg.retention_days with
                | .exn m =>
                  ({ error := some (mask_sensitive_data m) },
                   tr0 ++ [.createBackup, .upload, .configureAccess,
                     .cleanupOldFiles])
                | .ok cleaned =>
                  ({ success := true, backup_id := file_id, error := none,
                     files_cleaned := cleaned,
                     duration := some (env.t1 - env.t0),
                     backup_size := some (env.file_size bf) },
                   tr0 ++ [.createBackup, .upload, .configureAccess,
                     .cleanupOldFiles])

/-- The BackupResult execute_backup returns. -/
def execute_backup (env : RunEnv) (cfg : OrchConfig) : BackupResult :=
  (execute_backup_run env cfg).1

/-- The provider calls a run makes, in order. -/
def execute_backup_calls (env : RunEnv) (cfg : OrchConfig) : List PCall :=
  (execute_backup_run env cfg).2

/-- The stages of a run, in the spec's naming. -/
inductive Stage where
  | validate
  | authenticate
  | createArtifact
  | uploadArtifact
  | configureAccess
  | cleanupRetention
deriving DecidableEq

/-- The first provider call of a run that raises, with its message,
following the gating of execute_backup; none when no reached call
raises. -/
def first_raise (env : RunEnv) (cfg : OrchConfig) : Option (Stage × String) :=
  match env.validate_setup with
  | .exn m => some (.validate, m)
  | .ok false => none
  | .ok true =>
    match env.src_authenticate with
    | .exn m => some (.authenticate, m)
    | .ok false => none
    | .ok true =>
      match env.sink_authenticate with
      | .exn m => some (.authenticate, m)
      | .ok false => none
      | .ok true =>
        match env.create_backup env.temp_dir with
        | .exn m => some (.createArtifact, m)
        | .ok backup_file =>
          if !pyTruthyOptStr backup_file then none
          else
            match env.upload (backup_file.getD "") with
            | .exn m => some (.uploadArtifact, m)
            | .ok file_id =>
              if !pyTruthyOptStr file_id then none
              else
                match env.configure_access cfg.sharing with
                | .exn m => some (.configureAccess, m)
                | .ok _ =>
                  match env.cleanup_old_files cfg.retention_days with
                  | .exn m => some (.cleanupRetention, m)
                  | .ok _ => none

/-- The message execute_backup records when a stage raises m: the two early
helpers catch exceptions themselves and leave their fixed failure message;
later stages propagate to the orchestrator's handler, which masks the
raised message. -/
def raisedError (st : Stage) (m : String) : String :=
  match st with
  | .validate => "Setup validation failed"
  | .authenticate => "Provider authentication failed"
  | _ => mask_sensitive_data m

/-- A provider behaviour in which every stage succeeds, giving the scenario
of the spec's functional test: upload yields file123 and the retention
cleanup deletes three objects. -/
def happyEnv : RunEnv where
  validate_setup := .ok true
  src_authenticate := .ok true
  sink_authenticate := .ok true
  create_backup := fun _ => .ok (some "/tmp/wp_backup_x/site.tar.gz")
  upload := fun _ => .ok (some "file123")
  configure_access := fun _ => .ok true
  cleanup_old_files := fun _ => .ok 3
  file_size := fun _ => "1.0MB"
  temp_dir := "/tmp/wp_backup_x"
  t0 := 0
  t1 := 5

/-- Behaviour in which validate_setup raises. -/
def raisingValidateEnv : RunEnv :=
  { happyEnv with validate_setup := .exn "boom" }

/-- Behaviour in which create_backup raises a message containing a password
assignment. -/
def raisingCreateEnv : RunEnv :=
  { happyEnv with create_backup := fun _ => .exn "password=hunter2 leaked" }

/-- Behaviour in which upload succeeds and configure_access raises a message
containing an email address. -/
def raisingShareEnv : RunEnv :=
  { happyEnv with configure_access := fun _ => .exn "grant failed for admin@example.com" }

/-- Behaviour in which configure_access reports failure by returning
False. -/
def shareFalseEnv : RunEnv :=
  { happyEnv with configure_access := fun _ => .ok false }

/-- Behaviour in which validate_setup returns False. -/
def validateFalseEnv : RunEnv :=
  { happyEnv with validate_setup := .ok false }

/-- Behaviour in which the source provider fails to authenticate. -/
def srcAuthFalseEnv : RunEnv :=
  { happyEnv with src_authenticate := .ok false }

/-- Behaviour in which create_backup returns None. -/
def createNoneEnv : RunEnv :=
  { happyEnv with create_backup := fun _ => .ok none }

/-- Path.exists oracle under which every file exists. -/
def fsAll : String → Bool := fun _ => true

/-- An otherwise valid configuration whose domain is the placeholder
example.com. -/
def validCfgExample : ConfigDict where
  wordpress :=
    { domain := some "example.com", path := some "/var/www/mysite",
      backup_dir := some "/tmp/wp-backup" }
  google_drive :=
    { folder := some "backup/mysite",
      credentials_file := some "config/gdrive-credentials.json",
      retention_days := some (.vint 7) }
  sharing :=
    { emails := ["admin@mysite.com"], role := some "reader",
      make_public := some (.vbool false) }
  database := none

/-- The same configuration with the placeholder test.com. -/
def validCfgTest : ConfigDict :=
  { validCfgExample with
    wordpress := { validCfgExample.wordpress with domain := some "test.com" } }

/-- The same configuration with the placeholder localhost. -/
def validCfgLocalhost : ConfigDict :=
  { validCfgExample with
    wordpress := { validCfgExample.wordpress with domain := some "localhost" } }

/-- The example configuration with a retention of zero days. -/
def cfgRetentionZero : ConfigDict :=
  { validCfgExample with
    google_drive :=
      { validCfgExample.google_drive with retention_days := some (.vint 0) } }

/-- Secret sources with nothing set anywhere. -/
def emptySecretSources : SecretSources where
  osenv := fun _ => none
  envFiles := [none, none]
  promptRaw := none

/-- Secret sources in which the environment carries the empty string for
DB_PASSWORD and the .env.local file assigns it a real value. -/
def demoSecretSources : SecretSources where
  osenv := fun k => if k = "DB_PASSWORD" then some "" else none
  envFiles := [some ["# local overrides", "DB_PASSWORD='hunter2'"], none]
  promptRaw := none

/-- String append acts as list append on the underlying characters. -/
theorem strData_append (s t : String) : (s ++ t).data = s.data ++ t.data := by
  cases s; cases t; rfl

/-- The head character survives appending on the right. -/
theorem head_of_append (pre x : String) (c : Char)
    (h : pre.data.head? = some c) : (pre ++ x).data.head? = some c := by
  rw [strData_append]
  cases hd : pre.data with
  | nil => rw [hd] at h; simp at h
  | cons a as =>
    rw [hd] at h
    simp at h
    simp [h]

/-- A message that starts with a character other than capital R is never the
retention error text. -/
theorem append_ne_retention (pre x : String) (c : Char)
    (h : pre.data.head? = some c) (hc : (c == 'R') = false) :
    ¬(pre ++ x = retentionMsg) := by
  intro he
  have h2 := head_of_append pre x c h
  rw [he] at h2
  have h3 : retentionMsg.data.head? = some 'R' := by decide
  rw [h3] at h2
  simp at h2
  subst h2
  simp at hc

/-- Membership form of the previous lemma. -/
theorem retention_not_mem_singleton_app (pre x : String) (c : Char)
    (h : pre.data.head? = some c) (hc : (c == 'R') = false) :
    retentionMsg ∉ [pre ++ x] := by
  intro hm
  simp at hm
  exact append_ne_retention pre x c h hc hm.symm

/-- The domain block never emits the retention error. -/
theorem retention_not_mem_wpDomain (d : Option String) :
    retentionMsg ∉ (wpDomainCheck d).1 := by
  unfold wpDomainCheck
  split
  · decide
  · split
    · exact retention_not_mem_singleton_app _ _ 'I' (by decide) (by decide)
    · split
      · simp
      · simp

/-- The path block never emits the retention error. -/
theorem retention_not_mem_wpPath (p : Option String) :
    retentionMsg ∉ wpPathCheck p := by
  unfold wpPathCheck
  split
  · decide
  · split
    · exact retention_not_mem_singleton_app _ _ 'W' (by decide) (by decide)
    · simp

/-- The backup_dir block never emits the retention error. -/
theorem retention_not_mem_wpBackupDir (b : Option String) :
    retentionMsg ∉ wpBackupDirCheck b := by
  unfold wpBackupDirCheck
  split
  · exact retention_not_mem_singleton_app _ _ 'B' (by decide) (by decide)
  · simp

/-- The folder block never emits the retention error. -/
theorem retention_not_mem_gdFolder (f : Option String) :
    retentionMsg ∉ gdFolderCheck f := by
  unfold gdFolderCheck
  split
  · decide
  · split
    · exact retention_not_mem_singleton_app _ _ 'I' (by decide) (by decide)
    · simp

/-- The credentials block never emits the retention error. -/
theorem retention_not_mem_gdCreds (fs : String → Bool) (c : Option String) :
    retentionMsg ∉ (gdCredsCheck fs c).1 := by
  unfold gdCredsCheck
  split
  · decide
  · split
    · simp
    · simp

/-- The email loop never emits the retention error. -/
theorem retention_not_mem_shEmail (emails : List String) :
    retentionMsg ∉ shEmailCheck emails := by
  unfold shEmailCheck
  intro hm
  simp only [List.mem_filterMap] at hm
  obtain ⟨e, _, he⟩ := hm
  split at he
  · simp at he
  · simp at he
    exact append_ne_retention _ _ 'I' (by decide) (by decide) he

/-- The role block never emits the retention error. -/
theorem retention_not_mem_shRole (role : Option String) :
    retentionMsg ∉ shRoleCheck role := by
  unfold shRoleCheck
  split
  · exact retention_not_mem_singleton_app _ _ 'I' (by decide) (by decide)
  · simp

/-- The make_public block never emits the retention error. -/
theorem retention_not_mem_shPublic (mp : Option PyVal) :
    retentionMsg ∉ shPublicCheck mp := by
  unfold shPublicCheck
  split
  · simp
  · split
    · decide
    · simp

/-- The database required-fields loop never emits the retention error. -/
theorem retention_not_mem_dbRequired (d : DbSection) :
    retentionMsg ∉ dbRequiredCheck d := by
  unfold dbRequiredCheck
  split_ifs <;> decide

/-- The database name block never emits the retention error. -/
theorem retention_not_mem_dbName (n : Option String) :
    retentionMsg ∉ dbNameCheck n := by
  unfold dbNameCheck
  split
  · exact retention_not_mem_singleton_app _ _ 'I' (by decide) (by decide)
  · simp

/-- The retention error is recorded by validate_full_config exactly when the
retention block records it: no other check can produce that text. -/
theorem retention_mem_iff (fs : String → Bool) (cfg : ConfigDict) :
    retentionMsg ∈ (validate_full_config fs cfg).1 ↔
      retentionMsg ∈ gdRetentionCheck cfg.google_drive.retention_days := by
  unfold validate_full_config validate_wordpress_config
    validate_google_drive_config validate_sharing_config
  cases hdb : cfg.database with
  | none =>
    simp [List.mem_append, retention_not_mem_wpDomain, retention_not_mem_wpPath,
          retention_not_mem_wpBackupDir, retention_not_mem_gdFolder,
          retention_not_mem_gdCreds, retention_not_mem_shEmail,
          retention_not_mem_shRole, retention_not_mem_shPublic]
  | some db =>
    unfold validate_database_config
    simp [List.mem_append, retention_not_mem_wpDomain, retention_not_mem_wpPath,
          retention_not_mem_wpBackupDir, retention_not_mem_gdFolder,
          retention_not_mem_gdCreds, retention_not_mem_shEmail,
          retention_not_mem_shRole, retention_not_mem_shPublic,
          retention_not_mem_dbRequired, retention_not_mem_dbName]

/-- An accumulated error makes validate_full_config return false. -/
theorem ok_false_of_retention_mem (fs : String → Bool) (cfg : ConfigDict)
    (h : retentionMsg ∈ (validate_full_config fs cfg).1) :
    validate_full_config_ok fs cfg = false := by
  unfold validate_full_config_ok
  cases he : (validate_full_config fs cfg).1 with
  | nil => rw [he] at h; cases h
  | cons a l => simp

/-- A truthy optional string is not the empty-string hit. -/
theorem pyTruthy_beq_empty_false (v : Option String)
    (h : pyTruthyOptStr v = true) : (v == some "") = false := by
  cases v with
  | none => simp [pyTruthyOptStr] at h
  | some s => simp_all [pyTruthyOptStr]

/-- The env-file loop never yields the empty string. -/
theorem envFileLoop_not_empty (key : String) (fs : List (Option (List String))) :
    (envFileLoop key fs == some "") = false := by
  induction fs with
  | nil => simp [envFileLoop]
  | cons f t ih =>
    unfold envFileLoop
    dsimp only
    split
    · exact pyTruthy_beq_empty_false _ (by assumption)
    · exact ih

/-- The interactive prompt never yields the empty string. -/
theorem prompt_not_empty (src : SecretSources) (key : String) :
    (prompt_for_secret src key == some "") = false := by
  unfold prompt_for_secret
  cases src.promptRaw with
  | none => simp
  | some raw =>
    dsimp only
    split
    · simp
    · simp_all

/-- C1 (amended): whenever the first provider call of a run raises,
execute_backup still returns normally with success false; the recorded error
is the masked exception message when the raise happens in create_backup,
upload, configure_access or cleanup_old_files, but the fixed text "Setup
validation failed" or "Provider authentication failed" when it happens in
validate_setup or an authenticate call, whose helpers catch the exception
themselves. -/
theorem C1_exception_caught_with_stage_message (env : RunEnv) (cfg : OrchConfig)
    (st : Stage) (m : String)
    (h : first_raise env cfg = some (st, m)) :
    (execute_backup env cfg).success = false ∧
      (execute_backup env cfg).error = some (raisedError st m) := by
  unfold first_raise at h
  unfold execute_backup execute_backup_run validate_setup_helper
    authenticate_providers_helper
  repeat' split at h
  all_goals simp_all [raisedError, pyTruthyOptStr]
  all_goals (obtain ⟨hst, hm⟩ := h; subst hst; rfl)

/-- C1 counterexample: when validate_setup raises with message boom, the
recorded error is the fixed text "Setup validation failed", not the masked
exception message, which would be boom itself. -/
theorem C1_counterexample :
    (execute_backup raisingValidateEnv {}).success = false ∧
      (execute_backup raisingValidateEnv {}).error = some "Setup validation failed" ∧
      mask_sensitive_data "boom" = "boom" := by decide

/-- C1 witness: a run whose create_backup raises a password-bearing message
ends failed with the masked message recorded. -/
theorem C1_witness :
    ((execute_backup raisingCreateEnv {}).success = false ∧
      (execute_backup raisingCreateEnv {}).error
        = some (raisedError .createArtifact "password=hunter2 leaked")) ∧
      raisedError .createArtifact "password=hunter2 leaked" = "password=*** leaked" :=
  ⟨C1_exception_caught_with_stage_message raisingCreateEnv {} .createArtifact
      "password=hunter2 leaked" (by decide),
   by decide⟩

/-- C2 (amended): after a successful upload, a configure_access that reports
failure by returning False does not fail the run (the orchestrator ignores
its return value); but a configure_access that raises reaches the
orchestrator's exception handler, so the run ends with success false and the
masked message recorded. -/
theorem C2_sharing_best_effort_amended (env : RunEnv) (cfg : OrchConfig)
    (p i : String)
    (hv : env.validate_setup = .ok true)
    (ha : env.src_authenticate = .ok true)
    (hb : env.sink_authenticate = .ok true)
    (hc : env.create_backup env.temp_dir = .ok (some p))
    (hp : (p == "") = false)
    (hu : env.upload p = .ok (some i))
    (hi : (i == "") = false) :
    (∀ n : Int, env.configure_access cfg.sharing = .ok false →
        env.cleanup_old_files cfg.retention_days = .ok n →
        (execute_backup env cfg).success = true) ∧
      (∀ m : String, env.configure_access cfg.sharing = .exn m →
        (execute_backup env cfg).success = false ∧
          (execute_backup env cfg).error = some (mask_sensitive_data m)) := by
  constructor
  · intro n hca hcl
    simp [execute_backup, execute_backup_run, validate_setup_helper,
          authenticate_providers_helper, hv, ha, hb, hc, hu, hca, hcl,
          pyTruthyOptStr, hp, hi]
  · intro m hca
    simp [execute_backup, execute_backup_run, validate_setup_helper,
          authenticate_providers_helper, hv, ha, hb, hc, hu, hca,
          pyTruthyOptStr, hp, hi]

/-- C2 counterexample: a run in which everything up to upload succeeds and
configure_access raises ends with success false (the claim demands true),
the masked message stored on the result. -/
theorem C2_counterexample :
    (execute_backup raisingShareEnv {}).success = false ∧
      (execute_backup raisingShareEnv {}).error
        = some "grant failed for ***@example.com" := by decide

/-- C2 witness: a configure_access returning False leaves the run
successful. -/
theorem C2_witness : (execute_backup shareFalseEnv {}).success = true :=
  (C2_sharing_best_effort_amended shareFalseEnv {} "/tmp/wp_backup_x/site.tar.gz"
      "file123" rfl rfl rfl rfl (by decide) rfl (by decide)).1 3 rfl rfl

/-- C3: when validation and both authentications succeed, create_backup
yields a path, upload yields file123 and cleanup_old_files 7 yields 3, the
result is success with backup_id file123 and files_cleaned 3. -/
theorem C3_success_scenario (env : RunEnv) (cfg : OrchConfig) (p : String)
    (r : Bool)
    (hv : env.validate_setup = .ok true)
    (ha : env.src_authenticate = .ok true)
    (hb : env.sink_authenticate = .ok true)
    (hc : env.create_backup env.temp_dir = .ok (some p))
    (hp : (p == "") = false)
    (hu : env.upload p = .ok (some "file123"))
    (hx : env.configure_access cfg.sharing = .ok r)
    (hr : cfg.retention_days = 7)
    (hcl : env.cleanup_old_files 7 = .ok 3) :
    (execute_backup env cfg).success = true ∧
      (execute_backup env cfg).backup_id = some "file123" ∧
      (execute_backup env cfg).files_cleaned = 3 := by
  simp [execute_backup, execute_backup_run, validate_setup_helper,
        authenticate_providers_helper, hv, ha, hb, hc, hu, hx, hr, hcl,
        pyTruthyOptStr, hp]

/-- C3 witness: the all-success behaviour realises the scenario. -/
theorem C3_witness :
    (execute_backup happyEnv {}).success = true ∧
      (execute_backup happyEnv {}).backup_id = some "file123" ∧
      (execute_backup happyEnv {}).files_cleaned = 3 :=
  C3_success_scenario happyEnv {} "/tmp/wp_backup_x/site.tar.gz" true rfl rfl rfl
    rfl (by decide) rfl rfl rfl rfl

/-- C4 (amended): the duration field is populated only on successful runs,
where it equals the difference of the two wall-clock readings (taken just
before validation and at result population); on every failed run it stays
None. -/
theorem C4_duration_only_on_success (env : RunEnv) (cfg : OrchConfig) :
    (execute_backup env cfg).duration =
      if (execute_backup env cfg).success = true then some (env.t1 - env.t0)
      else none := by
  cases hv : env.validate_setup with
  | exn m =>
    simp [execute_backup, execute_backup_run, validate_setup_helper, hv]
  | ok b =>
    cases b with
    | false =>
      simp [execute_backup, execute_backup_run, validate_setup_helper, hv]
    | true =>
      cases ha : env.src_authenticate with
      | exn m =>
        simp [execute_backup, execute_backup_run, validate_setup_helper,
              authenticate_providers_helper, hv, ha]
      | ok b2 =>
        cases b2 with
        | false =>
          simp [execute_backup, execute_backup_run, validate_setup_helper,
                authenticate_providers_helper, hv, ha]
        | true =>
          cases hb : env.sink_authenticate with
          | exn m =>
            simp [execute_backup, execute_backup_run, validate_setup_helper,
                  authenticate_providers_helper, hv, ha, hb]
          | ok b3 =>
            cases b3 with
            | false =>
              simp [execute_backup, execute_backup_run, validate_setup_helper,
                    authenticate_providers_helper, hv, ha, hb]
            | true =>
              cases hc : env.create_backup env.temp_dir with
              | exn m =>
                simp [execute_backup, execute_backup_run, validate_setup_helper,
                      authenticate_providers_helper, hv, ha, hb, hc]
              | ok bf =>
                cases bf with
                | none =>
                  simp [execute_backup, execute_backup_run, validate_setup_helper,
                        authenticate_providers_helper, hv, ha, hb, hc,
                        pyTruthyOptStr]
                | some p =>
                  by_cases hp : p = ""
                  · simp [execute_backup, execute_backup_run, validate_setup_helper,
                          authenticate_providers_helper, hv, ha, hb, hc,
                          pyTruthyOptStr, hp]
                  · cases hu : env.upload p with
                    | exn m =>
                      simp [execute_backup, execute_backup_run,
                            validate_setup_helper, authenticate_providers_helper,
                            hv, ha, hb, hc, hu, pyTruthyOptStr, hp]
                    | ok fid =>
                      cases fid with
                      | none =>
                        simp [execute_backup, execute_backup_run,
                              validate_setup_helper, authenticate_providers_helper,
                              hv, ha, hb, hc, hu, pyTruthyOptStr, hp]
                      | some i =>
                        by_cases hi : i = ""
                        · simp [execute_backup, execute_backup_run,
                                validate_setup_helper, authenticate_providers_helper,
                                hv, ha, hb, hc, hu, pyTruthyOptStr, hp, hi]
                        · cases hx : env.configure_access cfg.sharing with
                          | exn m =>
                            simp [execute_backup, execute_backup_run,
                                  validate_setup_helper,
                                  authenticate_providers_helper, hv, ha, hb, hc,
                                  hu, hx, pyTruthyOptStr, hp, hi]
                          | ok r =>
                            cases hcl : env.cleanup_old_files cfg.retention_days with
                            | exn m =>
                              simp [execute_backup, execute_backup_run,
                                    validate_setup_helper,
                                    authenticate_providers_helper, hv, ha, hb, hc,
                                    hu, hx, hcl, pyTruthyOptStr, hp, hi]
                            | ok n =>
                              simp [execute_backup, execute_backup_run,
                                    validate_setup_helper,
                                    authenticate_providers_helper, hv, ha, hb, hc,
                                    hu, hx, hcl, pyTruthyOptStr, hp, hi]

/-- C4 counterexample: a run failing at setup validation ends with duration
None, while the claim demands a populated duration on failed runs too. -/
theorem C4_counterexample :
    (execute_backup validateFalseEnv {}).success = false ∧
      (execute_backup validateFalseEnv {}).duration = none := by decide

/-- C5: when validate_setup passes and the source provider's authenticate
returns false, the run fails with the fixed authentication message and the
sink provider's authenticate is never invoked. -/
theorem C5_source_auth_gates_sink (env : RunEnv) (cfg : OrchConfig)
    (hv : env.validate_setup = .ok true)
    (ha : env.src_authenticate = .ok false) :
    (execute_backup env cfg).success = false ∧
      (execute_backup env cfg).error = some "Provider authentication failed" ∧
      decide (PCall.sinkAuth ∈ execute_backup_calls env cfg) = false := by
  simp [execute_backup, execute_backup_run, execute_backup_calls,
        validate_setup_helper, authenticate_providers_helper, hv, ha]

/-- C5 witness. -/
theorem C5_witness :
    (execute_backup srcAuthFalseEnv {}).success = false ∧
      (execute_backup srcAuthFalseEnv {}).error
        = some "Provider authentication failed" ∧
      decide (PCall.sinkAuth ∈ execute_backup_calls srcAuthFalseEnv {}) = false :=
  C5_source_auth_gates_sink srcAuthFalseEnv {} rfl rfl

/-- C6: whenever create_backup returns None, the run ends with success false
and backup_id None, and upload is never called (this holds on every path,
including the ones that fail before the creation stage). -/
theorem C6_create_none_fails_no_upload (env : RunEnv) (cfg : OrchConfig)
    (hc : env.create_backup env.temp_dir = .ok none) :
    (execute_backup env cfg).success = false ∧
      (execute_backup env cfg).backup_id = none ∧
      decide (PCall.upload ∈ execute_backup_calls env cfg) = false := by
  cases hv : env.validate_setup with
  | exn m =>
    simp [execute_backup, execute_backup_calls, execute_backup_run,
          validate_setup_helper, hv, decide_eq_false_iff_not]
  | ok b =>
    cases b with
    | false =>
      simp [execute_backup, execute_backup_calls, execute_backup_run,
            validate_setup_helper, hv, decide_eq_false_iff_not]
    | true =>
      cases ha : env.src_authenticate with
      | exn m =>
        simp [execute_backup, execute_backup_calls, execute_backup_run,
              validate_setup_helper, authenticate_providers_helper, hv, ha,
              decide_eq_false_iff_not]
      | ok b2 =>
        cases b2 with
        | false =>
          simp [execute_backup, execute_backup_calls, execute_backup_run,
                validate_setup_helper, authenticate_providers_helper, hv, ha,
                decide_eq_false_iff_not]
        | true =>
          cases hb : env.sink_authenticate with
          | exn m =>
            simp [execute_backup, execute_backup_calls, execute_backup_run,
                  validate_setup_helper, authenticate_providers_helper, hv, ha,
                  hb, decide_eq_false_iff_not]
          | ok b3 =>
            cases b3 with
            | false =>
              simp [execute_backup, execute_backup_calls, execute_backup_run,
                    validate_setup_helper, authenticate_providers_helper, hv, ha,
                    hb, decide_eq_false_iff_not]
            | true =>
              simp [execute_backup, execute_backup_calls, execute_backup_run,
                    validate_setup_helper, authenticate_providers_helper, hv, ha,
                    hb, hc, pyTruthyOptStr, decide_eq_false_iff_not]

/-- C6 witness. -/
theorem C6_witness :
    (execute_backup createNoneEnv {}).success = false ∧
      (execute_backup createNoneEnv {}).backup_id = none ∧
      decide (PCall.upload ∈ execute_backup_calls createNoneEnv {}) = false :=
  C6_create_none_fails_no_upload createNoneEnv {} rfl

/-- C7: mask_sensitive_data is not idempotent.  On the failing input the
first pass rewrites the first email-shaped span only, and the second pass
finds a fresh email-shaped span straddling the rewritten text, so the two
outputs differ. -/
theorem C7_mask_not_idempotent_at_input :
    mask_sensitive_data "a@b.c@d.e" = "***@b.c@d.e" ∧
      mask_sensitive_data (mask_sensitive_data "a@b.c@d.e") = "***@b.***@d.e" := by
  decide

/-- C8: a present retention_days of 0, of 366, or of string type makes
validate_full_config record the retention error and reject the
configuration; the values 1 and 365, and an absent retention_days, record no
retention error. -/
theorem C8_retention_bounds : ∀ (fs : String → Bool) (cfg : ConfigDict),
    (cfg.google_drive.retention_days = some (.vint 0) →
        retentionMsg ∈ (validate_full_config fs cfg).1 ∧
          validate_full_config_ok fs cfg = false) ∧
      (cfg.google_drive.retention_days = some (.vint 366) →
        retentionMsg ∈ (validate_full_config fs cfg).1 ∧
          validate_full_config_ok fs cfg = false) ∧
      (∀ s : String, cfg.google_drive.retention_days = some (.vstr s) →
        retentionMsg ∈ (validate_full_config fs cfg).1 ∧
          validate_full_config_ok fs cfg = false) ∧
      (cfg.google_drive.retention_days = some (.vint 1) →
        decide (retentionMsg ∈ (validate_full_config fs cfg).1) = false) ∧
      (cfg.google_drive.retention_days = some (.vint 365) →
        decide (retentionMsg ∈ (validate_full_config fs cfg).1) = false) ∧
      (cfg.google_drive.retention_days = none →
        decide (retentionMsg ∈ (validate_full_config fs cfg).1) = false) := by
  intro fs cfg
  refine ⟨fun h => ?_, fun h => ?_, fun s h => ?_, fun h => ?_, fun h => ?_,
    fun h => ?_⟩
  all_goals
    first
    | (have hm : retentionMsg ∈ (validate_full_config fs cfg).1 := by
         rw [retention_mem_iff]
         rw [h]
         simp [gdRetentionCheck, PyVal.isInstInt, PyVal.asInt]
       exact ⟨hm, ok_false_of_retention_mem fs cfg hm⟩)
    | (rw [decide_eq_false_iff_not, retention_mem_iff, h]
       simp [gdRetentionCheck, PyVal.isInstInt, PyVal.asInt])

/-- C8 witness: the example configuration with retention 0 records the
retention error and is rejected. -/
theorem C8_witness :
    retentionMsg ∈ (validate_full_config fsAll cfgRetentionZero).1 ∧
      validate_full_config_ok fsAll cfgRetentionZero = false :=
  (C8_retention_bounds fsAll cfgRetentionZero).1 rfl

/-- C9 (amended): validate_full_config returns true exactly when no errors
were accumulated, so warnings never block; the placeholder domains
example.com and test.com pass the format check and yield only a placeholder
warning on an otherwise valid configuration, which is accepted.  (The third
placeholder, localhost, fails the domain format check and is rejected — see
the counterexample.) -/
theorem C9_valid_iff_no_errors_amended :
    (∀ (fs : String → Bool) (cfg : ConfigDict),
        validate_full_config_ok fs cfg = true ↔
          (validate_full_config fs cfg).1 = []) ∧
      (validate_full_config_ok fsAll validCfgExample = true ∧
        (validate_full_config fsAll validCfgExample).2
          = ["WordPress domain looks like a placeholder: example.com"]) ∧
      (validate_full_config_ok fsAll validCfgTest = true ∧
        (validate_full_config fsAll validCfgTest).2
          = ["WordPress domain looks like a placeholder: test.com"]) := by
  refine ⟨fun fs cfg => ?_, by decide, by decide⟩
  simp [validate_full_config_ok, List.isEmpty_iff]

/-- C9 counterexample: with the placeholder localhost in an otherwise valid
configuration, the domain format check records an error (not a warning) and
validate_full_config returns false, against the claim. -/
theorem C9_counterexample :
    validate_full_config_ok fsAll validCfgLocalhost = false ∧
      (validate_full_config fsAll validCfgLocalhost).1
        = ["Invalid WordPress domain format: localhost"] ∧
      (validate_full_config fsAll validCfgLocalhost).2 = [] := by decide

/-- C10: get_secret never yields the empty string; an environment variable
set to the empty string behaves exactly as an unset one (resolution
continues to the env files); and a file line assigning the key an empty
quoted value makes that file yield nothing, so the loop moves to the next
source. -/
theorem C10_get_secret_never_empty : ∀ (osf : String → Option String)
    (files : List (Option (List String))) (praw : Option String)
    (key : String) (hasPrompt : Bool),
    ((get_secret ⟨osf, files, praw⟩ key hasPrompt == some "") = false) ∧
      (get_secret ⟨fun k => if k = key then some "" else osf k, files, praw⟩
          key hasPrompt
        = get_secret ⟨fun k => if k = key then none else osf k, files, praw⟩
          key hasPrompt) ∧
      (envFileLoop "DB_PASSWORD" (some ["DB_PASSWORD=''"] :: files)
        = envFileLoop "DB_PASSWORD" files) := by
  intro osf files praw key hasPrompt
  refine ⟨?_, ?_, rfl⟩
  · unfold get_secret
    dsimp only
    split
    · exact pyTruthy_beq_empty_false _ (by assumption)
    · split
      · next v heq =>
        have h2 := envFileLoop_not_empty key files
        rw [heq] at h2
        exact h2
      · split
        · exact prompt_not_empty _ _
        · simp
  · simp [get_secret, pyTruthyOptStr, prompt_for_secret]

/-- C10 witness: with the environment holding the empty string the
resolution falls through to the env file and yields its non-empty value. -/
theorem C10_witness :
    ((get_secret demoSecretSources "DB_PASSWORD" false == some "") = false) ∧
      get_secret demoSecretSources "DB_PASSWORD" false = some "hunter2" :=
  ⟨(C10_get_secret_never_empty demoSecretSources.osenv demoSecretSources.envFiles
      demoSecretSources.promptRaw "DB_PASSWORD" false).1, by decide⟩

end WpBackup
